import Mathlib

/-!
Shallow embedding of the catboard content-extraction pipeline
(src/file.rs, src/ocr.rs, src/error.rs) and verification of its
specification.

Modelling conventions:
Machine strings are Lean `String` (a list of chars); raw file bytes are
`List Nat` (each < 256, the null byte is 0).  Rust standard-library
string primitives (`str::trim`, `eq_ignore_ascii_case`,
`str::to_lowercase`, `String::is_empty`) are modelled char-wise below;
`to_lowercase` is modelled by ASCII lowering, which agrees with Unicode
lowering on every ASCII extension.  The operating system, the external
PDF parsing collaborator (pdf_oxide), the OCR helper subprocess and the
UTF-8 decode performed by `fs::read_to_string` are environment inputs,
passed explicitly to each operation.
-/

namespace Catboard

/-- Model of Rust `char::is_whitespace` (the Unicode White_Space property). -/
def rustIsWhitespace (c : Char) : Bool :=
  c == ' ' || c == '\t' || c == '\n' || c == '\r' || c == '\x0b' || c == '\x0c' ||
  c == '\u0085' || c == '\u00a0' || c == '\u1680' ||
  c == '\u2000' || c == '\u2001' || c == '\u2002' || c == '\u2003' || c == '\u2004' ||
  c == '\u2005' || c == '\u2006' || c == '\u2007' || c == '\u2008' || c == '\u2009' ||
  c == '\u200a' || c == '\u2028' || c == '\u2029' || c == '\u202f' || c == '\u205f' ||
  c == '\u3000'

/-- Model of Rust `str::trim`: drop leading and trailing whitespace. -/
def rustTrim (s : String) : String :=
  ⟨((s.data.dropWhile rustIsWhitespace).reverse.dropWhile rustIsWhitespace).reverse⟩

/-- Model of Rust `String::is_empty`. -/
def strIsEmpty (s : String) : Bool := s.data.isEmpty

/-- ASCII lowering of every char of a string.  Models Rust
`str::to_ascii_lowercase`, and `str::to_lowercase` restricted to ASCII input. -/
def asciiLowerStr (s : String) : String := ⟨s.data.map Char.toLower⟩

/-- Model of Rust `str::eq_ignore_ascii_case`. -/
def eqIgnoreAsciiCase (a b : String) : Bool := asciiLowerStr a == asciiLowerStr b

/-- Decidable check that `pat` occurs at the head of `s`. -/
def startsWithChars (s pat : List Char) : Bool :=
  match s, pat with
  | _, [] => true
  | [], _ :: _ => false
  | a :: as, b :: bs => a == b && startsWithChars as bs

/-- Decidable check that `sub` occurs as a contiguous substring of `s`. -/
def mentionsStr (s sub : String) : Bool :=
  go s.data sub.data
where
  go : List Char → List Char → Bool
  | s, pat =>
    startsWithChars s pat ||
      match s with
      | [] => false
      | _ :: rest => go rest pat

/-- The apostrophe character, used in error-message literals. -/
def squote : String := ⟨['\x27']⟩

/-- The error type of src/error.rs.  The `path` payloads, which are always the
path extraction was invoked on, are elided; the message payloads are kept.
The `ExtractionError` variant is declared exactly as it is constructed
throughout src/file.rs and src/ocr.rs (fields `path` and `message`). -/
inductive CatboardError where
  | FileNotFound
  | PermissionDenied
  | BinaryFile
  | ExtractionError (message : String)
  | IoError (message : String)
deriving DecidableEq

instance {ε α : Type} [DecidableEq ε] [DecidableEq α] : DecidableEq (Except ε α) :=
  fun a b =>
    match a, b with
    | .ok x, .ok y => decidable_of_iff (x = y) (by simp)
    | .ok _, .error _ => .isFalse (by simp)
    | .error _, .ok _ => .isFalse (by simp)
    | .error x, .error y => decidable_of_iff (x = y) (by simp)

/-- File classifications per spec §3: which reader handles a path. -/
inductive FileClassification where
  | Text
  | Pdf
  | Image
deriving DecidableEq

/-- Maximum bytes to check for binary content detection (src/file.rs). -/
def BINARY_CHECK_SIZE : Nat := 8192

/-- Known image extensions that the program can OCR (src/ocr.rs). -/
def IMAGE_EXTENSIONS : List String :=
  ["png", "jpg", "jpeg", "tiff", "tif", "gif", "bmp", "webp", "heic", "heif"]

/-- src/file.rs `is_pdf_extension`: check if the extension matches PDF
(ASCII-case-insensitively).  `ext` is the result of `Path::extension()`. -/
def is_pdf_extension (ext : Option String) : Bool :=
  match ext with
  | some e => eqIgnoreAsciiCase e "pdf"
  | none => false

/-- src/ocr.rs `is_image_file`: check if the extension indicates an image
file.  `ext` is the result of `Path::extension()`. -/
def is_image_file (ext : Option String) : Bool :=
  match ext with
  | some e => IMAGE_EXTENSIONS.contains (asciiLowerStr e)
  | none => false

/-- The classification implied by the dispatch chain of
src/file.rs `read_file_contents` (spec §4.1). -/
def classify (ext : Option String) : FileClassification :=
  if is_pdf_extension ext then .Pdf
  else if is_image_file ext then .Image
  else .Text

/-- The operating system the program was compiled for: `cfg(target_os)`. -/
inductive TargetOs where
  | macos
  | other
deriving DecidableEq

/-- The captured result of a finished subprocess (`std::process::Output`):
exit-status success flag, standard output and standard error, the streams
already decoded (lossily) to strings. -/
structure ProcessOutput where
  success : Bool
  stdout : String
  stderr : String
deriving DecidableEq

/-- Environment of one OCR engine use: the compile-time target OS, whether
`find_ocr_helper` locates the helper binary, and the outcome of invoking the
helper subprocess (`Command::output`: spawn error, or a finished process). -/
structure OcrEnv where
  targetOs : TargetOs
  helperFound : Bool
  run : Except String ProcessOutput
deriving DecidableEq

/-- src/ocr.rs `run_ocr_helper` (macOS): interpret the subprocess outcome. -/
def run_ocr_helper (run : Except String ProcessOutput) : Except CatboardError String :=
  match run with
  | .error e => .error (.ExtractionError ("Failed to run OCR helper: " ++ e))
  | .ok output =>
    if !output.success then
      .error (.ExtractionError ("OCR failed: " ++ rustTrim output.stderr))
    else
      let text := output.stdout
      if strIsEmpty (rustTrim text) then
        .error (.ExtractionError "Image contains no recognizable text")
      else
        .ok text

/-- Message of src/ocr.rs when the helper binary was not found. -/
def helperMissingMsg : String :=
  "OCR helper " ++ squote ++ "catboard-ocr" ++ squote ++
    " not found. Install it alongside catboard."

/-- src/ocr.rs `SystemOcrEngine::extract_text`, both `cfg` variants. -/
def SystemOcrEngine.extract_text (env : OcrEnv) : Except CatboardError String :=
  match env.targetOs with
  | .macos =>
    match env.helperFound with
    | true => run_ocr_helper env.run
    | false => .error (.ExtractionError helperMissingMsg)
  | .other => .error (.ExtractionError "OCR is only supported on macOS")

/-- src/ocr.rs `SystemOcrEngine::is_available`, both `cfg` branches. -/
def SystemOcrEngine.is_available (env : OcrEnv) : Bool :=
  match env.targetOs with
  | .macos => env.helperFound
  | .other => false

/-- src/ocr.rs `extract_text_from_image`. -/
def extract_text_from_image (env : OcrEnv) : Except CatboardError String :=
  SystemOcrEngine.extract_text env

/-- src/ocr.rs `is_ocr_available`. -/
def is_ocr_available (env : OcrEnv) : Bool :=
  SystemOcrEngine.is_available env

/-- Behaviour of the external PDF collaborator (pdf_oxide) on one document:
whether `PdfDocument::open` fails, whether `page_count` fails, and the result
of `extract_text` for each page index `0 .. pages.length - 1`. -/
structure PdfInput where
  openErr : Option String
  countErr : Option String
  pages : List (Except String String)
deriving DecidableEq

/-- The page loop of src/file.rs `extract_pdf_text`: fold the per-page
results, pushing a newline before a page text whenever the accumulated
text is non-empty, and aborting on the first per-page failure with a
message naming the 1-based page number. -/
def pdfPagesLoop : List (Except String String) → Nat → String → Except CatboardError String
  | [], _, all_text => .ok all_text
  | .ok text :: rest, page_num, all_text =>
    pdfPagesLoop rest (page_num + 1)
      (if strIsEmpty all_text then all_text ++ text else all_text ++ "\n" ++ text)
  | .error e :: _, page_num, _ =>
    .error (.ExtractionError ("Failed to extract page " ++ toString (page_num + 1) ++ ": " ++ e))

/-- src/file.rs `extract_pdf_with_ocr`, both `cfg` variants: on macOS, hand
the original PDF path to the OCR capability and reject whitespace-only OCR
output; elsewhere, fail unconditionally. -/
def extract_pdf_with_ocr (env : OcrEnv) : Except CatboardError String :=
  match env.targetOs with
  | .macos =>
    match extract_text_from_image env with
    | .error e => .error e
    | .ok text =>
      if strIsEmpty (rustTrim text) then
        .error (.ExtractionError "PDF contains no recognizable text (OCR found nothing)")
      else
        .ok text
  | .other =>
    .error (.ExtractionError "PDF contains no extractable text (OCR only available on macOS)")

/-- src/file.rs `extract_pdf_text`: open the document, query the page count,
run the page loop, return non-whitespace embedded text, otherwise fall back
to OCR when available. -/
def extract_pdf_text (env : OcrEnv) (doc : PdfInput) : Except CatboardError String :=
  match doc.openErr with
  | some e => .error (.ExtractionError e)
  | none =>
    match doc.countErr with
    | some e => .error (.ExtractionError e)
    | none =>
      match pdfPagesLoop doc.pages 0 "" with
      | .error e => .error e
      | .ok all_text =>
        if !strIsEmpty (rustTrim all_text) then
          .ok all_text
        else if is_ocr_available env then
          extract_pdf_with_ocr env
        else
          .error (.ExtractionError "PDF contains no extractable text")

/-- Outcome of `fs::File::open` when it fails, by `ErrorKind` category
(src/file.rs `read_text_file` maps these to typed errors). -/
inductive OpenError where
  | permissionDenied
  | notFound
  | otherIo (msg : String)
deriving DecidableEq

/-- src/file.rs `read_text_file`: open the file, read the first
`BINARY_CHECK_SIZE` bytes, reject any null byte in that window as binary,
otherwise re-read the whole file decoded as UTF-8.  `bytes` is the file
content; `decoded` is the result of the `fs::read_to_string` UTF-8 decode
of that same content (`some s` exactly when the content is valid UTF-8
encoding the string `s`). -/
def read_text_file (openErr : Option OpenError) (bytes : List Nat)
    (decoded : Option String) : Except CatboardError String :=
  match openErr with
  | some .permissionDenied => .error .PermissionDenied
  | some .notFound => .error .FileNotFound
  | some (.otherIo m) => .error (.IoError m)
  | none =>
    if (bytes.take BINARY_CHECK_SIZE).contains 0 then
      .error .BinaryFile
    else
      match decoded with
      | some s => .ok s
      | none => .error (.IoError "stream did not contain valid UTF-8")

/-- One extraction call's whole environment: whether the path exists, its
extension (`Path::extension()`), the OCR environment, the PDF collaborator
behaviour, and the plain-file data used by the text reader. -/
structure ExtractInput where
  pathExists : Bool
  ext : Option String
  ocr : OcrEnv
  pdf : PdfInput
  openErr : Option OpenError
  bytes : List Nat
  decoded : Option String
deriving DecidableEq

/-- src/file.rs `read_file_contents`: the extraction pipeline root.  Fail
fast when the path does not exist, then dispatch on the extension. -/
def read_file_contents (inp : ExtractInput) : Except CatboardError String :=
  if !inp.pathExists then
    .error .FileNotFound
  else if is_pdf_extension inp.ext then
    extract_pdf_text inp.ocr inp.pdf
  else if is_image_file inp.ext then
    extract_text_from_image inp.ocr
  else
    read_text_file inp.openErr inp.bytes inp.decoded

/-- Join a list of texts, a newline before each element. -/
def tailJoin : List String → String
  | [] => ""
  | t :: ts => "\n" ++ (t ++ tailJoin ts)

/-- Join a list of texts with a single newline between consecutive elements. -/
def newlineJoin : List String → String
  | [] => ""
  | t :: ts => t ++ tailJoin ts

/-- The page-text join rule as the spec words it: the page texts joined in
page order with a single newline between consecutive non-empty pieces,
empty pieces contributing no separator. -/
def specJoin (texts : List String) : String :=
  newlineJoin (texts.filter (fun t => !strIsEmpty t))

/-! Helper lemmas. -/

theorem strIsEmpty_iff {s : String} : strIsEmpty s = true ↔ s = "" := by
  constructor
  · intro h
    cases s with
    | mk d =>
      cases d with
      | nil => rfl
      | cons a as => simp [strIsEmpty] at h
  · intro h
    subst h
    rfl

theorem strIsEmpty_append_false (s t : String) (h : strIsEmpty s = false) :
    strIsEmpty (s ++ t) = false := by
  cases s with
  | mk d =>
    cases d with
    | nil => simp [strIsEmpty] at h
    | cons a as =>
      cases t with
      | mk e => rfl

theorem pdfPagesLoop_ok_append (texts : List String) :
    ∀ (n : Nat) (acc : String), strIsEmpty acc = false →
      pdfPagesLoop (texts.map Except.ok) n acc = .ok (acc ++ tailJoin texts) := by
  induction texts with
  | nil =>
    intro n acc _
    simp [pdfPagesLoop, tailJoin]
  | cons t ts ih =>
    intro n acc h
    simp only [List.map_cons, pdfPagesLoop, h, Bool.false_eq_true, if_false]
    rw [ih (n + 1) (acc ++ "\n" ++ t)
      (strIsEmpty_append_false _ _ (strIsEmpty_append_false _ _ h))]
    simp [tailJoin, String.append_assoc]

theorem pdfPagesLoop_ok (texts : List String) :
    ∀ n : Nat, pdfPagesLoop (texts.map Except.ok) n "" =
      .ok (newlineJoin (texts.dropWhile strIsEmpty)) := by
  induction texts with
  | nil =>
    intro n
    simp [pdfPagesLoop, newlineJoin]
  | cons t ts ih =>
    intro n
    simp only [List.map_cons, pdfPagesLoop]
    have hemp : strIsEmpty "" = true := rfl
    rw [if_pos hemp]
    cases ht : strIsEmpty t with
    | true =>
      have : t = "" := strIsEmpty_iff.mp ht
      subst this
      have happ : ("" : String) ++ "" = "" := rfl
      rw [happ, ih (n + 1)]
      simp [List.dropWhile, ht]
    | false =>
      have happ : ("" : String) ++ t = t := rfl
      rw [happ, pdfPagesLoop_ok_append ts (n + 1) t ht]
      simp [List.dropWhile, ht, newlineJoin]

theorem pdfPagesLoop_error (pre : List (Except String String)) :
    ∀ (post : List (Except String String)) (e : String) (n : Nat) (acc : String),
      (∀ x ∈ pre, ∃ t, x = .ok t) →
      pdfPagesLoop (pre ++ .error e :: post) n acc =
        .error (.ExtractionError
          ("Failed to extract page " ++ toString (n + pre.length + 1) ++ ": " ++ e)) := by
  induction pre with
  | nil =>
    intro post e n acc _
    simp [pdfPagesLoop]
  | cons x pre ih =>
    intro post e n acc hpre
    obtain ⟨t, rfl⟩ := hpre x (List.mem_cons_self x pre)
    have hstep : pdfPagesLoop ((Except.ok t :: pre) ++ Except.error e :: post) n acc =
        pdfPagesLoop (pre ++ Except.error e :: post) (n + 1)
          (if strIsEmpty acc then acc ++ t else acc ++ "\n" ++ t) := rfl
    rw [hstep, ih post e (n + 1) _ (fun y hy => hpre y (List.mem_cons_of_mem _ hy))]
    have harith : n + 1 + pre.length + 1 = n + (Except.ok t :: pre).length + 1 := by
      simp [List.length_cons]
      omega
    rw [harith]

theorem classify_text_iff {ext : Option String} :
    classify ext = .Text ↔ is_pdf_extension ext = false ∧ is_image_file ext = false := by
  unfold classify
  cases h1 : is_pdf_extension ext <;> cases h2 : is_image_file ext <;> simp

theorem classify_pdf_iff {ext : Option String} :
    classify ext = .Pdf ↔ is_pdf_extension ext = true := by
  unfold classify
  cases h1 : is_pdf_extension ext <;> cases h2 : is_image_file ext <;> simp

theorem classify_image_iff {ext : Option String} :
    classify ext = .Image ↔ is_pdf_extension ext = false ∧ is_image_file ext = true := by
  unfold classify
  cases h1 : is_pdf_extension ext <;> cases h2 : is_image_file ext <;> simp

/-! Claims. -/

/-- C1, counterexample: on the three-page PDF with page texts "a", "", "b"
(all pages succeed, and the combined text is non-empty after trimming),
`extract_pdf_text` returns "a\n\nb", while the claimed join rule — a single
newline between consecutive non-empty pieces, empty pieces contributing no
separator — yields "a\nb".  The empty second page did contribute a
separator. -/
theorem pdf_join_claim_counterexample :
    extract_pdf_text ⟨.other, false, .error ""⟩ ⟨none, none, [.ok "a", .ok "", .ok "b"]⟩ =
        .ok "a\n\nb" ∧
      strIsEmpty (rustTrim "a\n\nb") = false ∧
      specJoin ["a", "", "b"] = "a\nb" ∧
      ("a\n\nb" : String) ≠ "a\nb" := by decide

/-- C1, amended: for every PDF whose pages all yield text successfully and
whose combined text is non-empty after trimming, `extract_pdf_text` returns
the page texts joined in page order with a single newline inserted before
each page text except while the accumulated text is still empty; that is,
leading empty page texts contribute no separator, but every page text after
the first non-empty one — empty or not — is preceded by one newline. -/
theorem pdf_join_pages_amended (env : OcrEnv) (doc : PdfInput) (texts : List String)
    (hopen : doc.openErr = none) (hcount : doc.countErr = none)
    (hpages : doc.pages = texts.map Except.ok)
    (hne : strIsEmpty (rustTrim (newlineJoin (texts.dropWhile strIsEmpty))) = false) :
    extract_pdf_text env doc = .ok (newlineJoin (texts.dropWhile strIsEmpty)) := by
  unfold extract_pdf_text
  simp only [hopen, hcount, hpages]
  rw [pdfPagesLoop_ok texts 0]
  simp [hne]

/-- C1, witness for the amended theorem at the counterexample input. -/
theorem pdf_join_pages_amended_witness :
    extract_pdf_text ⟨.other, false, .error ""⟩ ⟨none, none, [.ok "a", .ok "", .ok "b"]⟩ =
        .ok (newlineJoin (["a", "", "b"].dropWhile strIsEmpty)) ∧
      newlineJoin (["a", "", "b"].dropWhile strIsEmpty) = "a\n\nb" :=
  ⟨pdf_join_pages_amended ⟨.other, false, .error ""⟩ ⟨none, none, [.ok "a", .ok "", .ok "b"]⟩
    ["a", "", "b"] rfl rfl rfl (by decide), by decide⟩

/-- C2: for every file classified as Text whose first
min(file size, 8192) bytes contain a null byte, extraction fails with
`BinaryFile`, whatever the bytes after the window and whatever the decode
of the whole file would give. -/
theorem text_null_byte_rejected (inp : ExtractInput)
    (hex : inp.pathExists = true)
    (hcls : classify inp.ext = .Text)
    (hopen : inp.openErr = none)
    (hnull : (inp.bytes.take BINARY_CHECK_SIZE).contains 0 = true) :
    read_file_contents inp = .error .BinaryFile := by
  obtain ⟨h1, h2⟩ := classify_text_iff.mp hcls
  have hnull' : 0 ∈ List.take BINARY_CHECK_SIZE inp.bytes := by simpa using hnull
  unfold read_file_contents read_text_file
  simp [hex, h1, h2, hopen, hnull']

/-- C2, witness: the spec scenario binary.bin = [0x48, 0x65, 0x6c, 0x00, 0x6f]. -/
theorem text_null_byte_rejected_witness :
    read_file_contents
        ⟨true, some "bin", ⟨.other, false, .error ""⟩, ⟨none, none, []⟩, none,
          [0x48, 0x65, 0x6c, 0x00, 0x6f], none⟩ =
      .error .BinaryFile :=
  text_null_byte_rejected
    ⟨true, some "bin", ⟨.other, false, .error ""⟩, ⟨none, none, []⟩, none,
      [0x48, 0x65, 0x6c, 0x00, 0x6f], none⟩
    rfl (by decide) rfl (by decide)

/-- C3: for every file classified as Text whose content is valid UTF-8
(decoding to `s`) with no null byte in the first 8192 bytes, extraction
returns exactly `s`. -/
theorem text_valid_utf8_returned (inp : ExtractInput) (s : String)
    (hex : inp.pathExists = true)
    (hcls : classify inp.ext = .Text)
    (hopen : inp.openErr = none)
    (hnull : (inp.bytes.take BINARY_CHECK_SIZE).contains 0 = false)
    (hdec : inp.decoded = some s) :
    read_file_contents inp = .ok s := by
  obtain ⟨h1, h2⟩ := classify_text_iff.mp hcls
  have hnull' : 0 ∉ List.take BINARY_CHECK_SIZE inp.bytes := by simpa using hnull
  unfold read_file_contents read_text_file
  simp [hex, h1, h2, hopen, hnull', hdec]

/-- C3, witness: the spec scenario empty.txt, a 0-byte file, returns "". -/
theorem text_valid_utf8_returned_witness :
    read_file_contents
        ⟨true, some "txt", ⟨.other, false, .error ""⟩, ⟨none, none, []⟩, none, [], some ""⟩ =
      .ok "" :=
  text_valid_utf8_returned
    ⟨true, some "txt", ⟨.other, false, .error ""⟩, ⟨none, none, []⟩, none, [], some ""⟩
    "" rfl (by decide) rfl (by decide) rfl

/-- C5, counterexample: a PDF with one whitespace-only page, with OCR
unavailable, fails with the message "PDF contains no extractable text",
which does not mention OCR at all — contrary to the claim that the message
also states that OCR support is absent on this platform or build. -/
theorem pdf_no_ocr_message_counterexample :
    extract_pdf_text ⟨.other, false, .error ""⟩ ⟨none, none, [.ok " "]⟩ =
        .error (.ExtractionError "PDF contains no extractable text") ∧
      is_ocr_available ⟨.other, false, .error ""⟩ = false ∧
      mentionsStr "PDF contains no extractable text" "OCR" = false := by decide

/-- C5, amended: for every PDF whose pages all succeed and whose
concatenated text is empty after trimming, if OCR is unavailable then
`extract_pdf_text` fails with an `ExtractionError` whose message is
exactly "PDF contains no extractable text" (stating that the PDF has no
extractable text, but not mentioning OCR availability). -/
theorem pdf_no_text_no_ocr_error (env : OcrEnv) (doc : PdfInput) (texts : List String)
    (hopen : doc.openErr = none) (hcount : doc.countErr = none)
    (hpages : doc.pages = texts.map Except.ok)
    (hempty : strIsEmpty (rustTrim (newlineJoin (texts.dropWhile strIsEmpty))) = true)
    (hocr : is_ocr_available env = false) :
    extract_pdf_text env doc = .error (.ExtractionError "PDF contains no extractable text") := by
  unfold extract_pdf_text
  simp only [hopen, hcount, hpages]
  rw [pdfPagesLoop_ok texts 0]
  simp [hempty, hocr]

/-- C5, witness for the amended theorem at the counterexample input. -/
theorem pdf_no_text_no_ocr_error_witness :
    extract_pdf_text ⟨.other, false, .error ""⟩ ⟨none, none, [.ok " "]⟩ =
      .error (.ExtractionError "PDF contains no extractable text") :=
  pdf_no_text_no_ocr_error ⟨.other, false, .error ""⟩ ⟨none, none, [.ok " "]⟩
    [" "] rfl rfl rfl (by decide) rfl

/-- C6: when page `pre.length` (0-based) of a PDF fails with cause `e` and
all earlier pages succeed, `extract_pdf_text` fails with an
`ExtractionError` naming the 1-based page number `pre.length + 1` and the
cause `e`, whatever the per-page results after the failing page are — so
the loop aborts at the first failure and failing pages are never skipped. -/
theorem pdf_page_failure_aborts (env : OcrEnv) (doc : PdfInput)
    (pre post : List (Except String String)) (e : String)
    (hopen : doc.openErr = none) (hcount : doc.countErr = none)
    (hpages : doc.pages = pre ++ .error e :: post)
    (hpre : ∀ x ∈ pre, ∃ t, x = .ok t) :
    extract_pdf_text env doc =
      .error (.ExtractionError
        ("Failed to extract page " ++ toString (pre.length + 1) ++ ": " ++ e)) := by
  unfold extract_pdf_text
  simp only [hopen, hcount, hpages]
  rw [pdfPagesLoop_error pre post e 0 "" hpre]
  have harith : 0 + pre.length + 1 = pre.length + 1 := by omega
  rw [harith]

/-- C6, witness: a second page failing with cause "boom" after a
successful first page, with a third page present, yields the page-2
message. -/
theorem pdf_page_failure_aborts_witness :
    extract_pdf_text ⟨.other, false, .error ""⟩
          ⟨none, none, [.ok "x", .error "boom", .ok "y"]⟩ =
        .error (.ExtractionError
          ("Failed to extract page " ++ toString ([Except.ok (ε := String) "x"].length + 1) ++
            ": " ++ "boom")) ∧
      ("Failed to extract page " ++ toString ([Except.ok (ε := String) "x"].length + 1) ++
          ": " ++ "boom") = "Failed to extract page 2: boom" :=
  ⟨pdf_page_failure_aborts ⟨.other, false, .error ""⟩
      ⟨none, none, [.ok "x", .error "boom", .ok "y"]⟩
      [.ok "x"] [.ok "y"] "boom" rfl rfl rfl
      (by
        intro x hx
        rw [List.mem_singleton] at hx
        exact ⟨"x", hx⟩),
    by decide⟩

/-- C8: for every path that does not exist at call time, extraction fails
with `FileNotFound`, whatever the extension and whatever every collaborator
would do — so the failure happens before any classification or dispatch. -/
theorem missing_path_fails_first (inp : ExtractInput)
    (h : inp.pathExists = false) :
    read_file_contents inp = .error .FileNotFound := by
  unfold read_file_contents
  simp [h]

/-- C4: with the helper available on macOS, `extract_text` succeeds exactly
when the subprocess ran, exited successfully and produced non-whitespace
standard output; a non-zero exit yields an `ExtractionError` whose message
is "OCR failed: " followed by the trimmed standard error; whitespace-only
output on a success exit yields the "no recognizable text" error. -/
theorem ocr_helper_outcome (out : Except String ProcessOutput) :
    ((∃ s, SystemOcrEngine.extract_text ⟨.macos, true, out⟩ = .ok s) ↔
      (∃ o, out = .ok o ∧ o.success = true ∧ strIsEmpty (rustTrim o.stdout) = false)) ∧
    (∀ o, out = .ok o → o.success = false →
      SystemOcrEngine.extract_text ⟨.macos, true, out⟩ =
        .error (.ExtractionError ("OCR failed: " ++ rustTrim o.stderr))) ∧
    (∀ o, out = .ok o → o.success = true → strIsEmpty (rustTrim o.stdout) = true →
      SystemOcrEngine.extract_text ⟨.macos, true, out⟩ =
        .error (.ExtractionError "Image contains no recognizable text")) := by
  refine ⟨?_, ?_, ?_⟩
  · cases out with
    | error e => simp [SystemOcrEngine.extract_text, run_ocr_helper]
    | ok o =>
      cases hs : o.success with
      | false => simp [SystemOcrEngine.extract_text, run_ocr_helper, hs]
      | true =>
        cases ht : strIsEmpty (rustTrim o.stdout) with
        | true => simp [SystemOcrEngine.extract_text, run_ocr_helper, hs, ht]
        | false => simp [SystemOcrEngine.extract_text, run_ocr_helper, hs, ht]
  · intro o ho hs
    subst ho
    simp [SystemOcrEngine.extract_text, run_ocr_helper, hs]
  · intro o ho hs ht
    subst ho
    simp [SystemOcrEngine.extract_text, run_ocr_helper, hs, ht]

/-- C4, witness: a failed run with standard error " err \n" yields the
trimmed message, applied at a concrete subprocess outcome. -/
theorem ocr_helper_outcome_witness :
    SystemOcrEngine.extract_text ⟨.macos, true, .ok ⟨false, "", " err \n"⟩⟩ =
        .error (.ExtractionError ("OCR failed: " ++ rustTrim " err \n")) ∧
      ("OCR failed: " ++ rustTrim " err \n") = "OCR failed: err" :=
  ⟨(ocr_helper_outcome (.ok ⟨false, "", " err \n"⟩)).2.1 ⟨false, "", " err \n"⟩ rfl rfl,
    by decide⟩

/-- C7: classification is a pure function of the extension: "pdf" in any
ASCII letter case classifies as Pdf, any of the ten image extensions in any
ASCII letter case classifies as Image, and every other extension, or none,
classifies as Text. -/
theorem classification_by_extension :
    classify none = .Text ∧
    (∀ e : String, asciiLowerStr e = "pdf" → classify (some e) = .Pdf) ∧
    (∀ e : String, asciiLowerStr e ∈ IMAGE_EXTENSIONS → classify (some e) = .Image) ∧
    (∀ e : String, asciiLowerStr e ≠ "pdf" → asciiLowerStr e ∉ IMAGE_EXTENSIONS →
      classify (some e) = .Text) := by
  have hlow : asciiLowerStr "pdf" = "pdf" := by decide
  refine ⟨rfl, ?_, ?_, ?_⟩
  · intro e h
    apply classify_pdf_iff.mpr
    simp [is_pdf_extension, eqIgnoreAsciiCase, hlow, h]
  · intro e h
    apply classify_image_iff.mpr
    have hne : asciiLowerStr e ≠ "pdf" := by
      intro hc
      rw [hc] at h
      simp [IMAGE_EXTENSIONS] at h
    constructor
    · simp [is_pdf_extension, eqIgnoreAsciiCase, hlow, hne]
    · simpa [is_image_file] using h
  · intro e h1 h2
    apply classify_text_iff.mpr
    constructor
    · simp [is_pdf_extension, eqIgnoreAsciiCase, hlow, h1]
    · simpa [is_image_file] using h2

/-- C7, witness: concrete mixed-case extensions of each kind. -/
theorem classification_by_extension_witness :
    classify (some "PdF") = .Pdf ∧
      classify (some "WebP") = .Image ∧
      classify (some "rs") = .Text ∧
      classify none = .Text :=
  ⟨classification_by_extension.2.1 "PdF" (by decide),
    classification_by_extension.2.2.1 "WebP" (by decide),
    classification_by_extension.2.2.2 "rs" (by decide) (by decide),
    classification_by_extension.1⟩

/-- Successful image OCR output is never whitespace-only. -/
theorem extract_text_from_image_nonblank (env : OcrEnv) (s : String)
    (h : extract_text_from_image env = .ok s) :
    strIsEmpty (rustTrim s) = false := by
  obtain ⟨tos, hfound, hrun⟩ := env
  cases tos with
  | other => simp [extract_text_from_image, SystemOcrEngine.extract_text] at h
  | macos =>
    cases hfound with
    | false => simp [extract_text_from_image, SystemOcrEngine.extract_text] at h
    | true =>
      cases hrun with
      | error e =>
        simp [extract_text_from_image, SystemOcrEngine.extract_text, run_ocr_helper] at h
      | ok o =>
        cases hs : o.success with
        | false =>
          simp [extract_text_from_image, SystemOcrEngine.extract_text, run_ocr_helper, hs] at h
        | true =>
          cases ht : strIsEmpty (rustTrim o.stdout) with
          | true =>
            simp [extract_text_from_image, SystemOcrEngine.extract_text, run_ocr_helper,
              hs, ht] at h
          | false =>
            have heq : o.stdout = s := by
              simpa [extract_text_from_image, SystemOcrEngine.extract_text, run_ocr_helper,
                hs, ht] using h
            rw [← heq]
            exact ht

/-- Successful OCR fallback output for a PDF is never whitespace-only. -/
theorem extract_pdf_with_ocr_nonblank (env : OcrEnv) (s : String)
    (h : extract_pdf_with_ocr env = .ok s) :
    strIsEmpty (rustTrim s) = false := by
  obtain ⟨tos, hfound, hrun⟩ := env
  cases tos with
  | other => simp [extract_pdf_with_ocr] at h
  | macos =>
    cases hi : extract_text_from_image ⟨.macos, hfound, hrun⟩ with
    | error e => simp [extract_pdf_with_ocr, hi] at h
    | ok text =>
      cases ht : strIsEmpty (rustTrim text) with
      | true => simp [extract_pdf_with_ocr, hi, ht] at h
      | false =>
        have hteq : text = s := by simpa [extract_pdf_with_ocr, hi, ht] using h
        rw [← hteq]
        exact ht

/-- A successful PDF extraction result is never whitespace-only. -/
theorem extract_pdf_text_nonblank (env : OcrEnv) (doc : PdfInput) (s : String)
    (h : extract_pdf_text env doc = .ok s) :
    strIsEmpty (rustTrim s) = false := by
  unfold extract_pdf_text at h
  cases ho : doc.openErr with
  | some e => simp [ho] at h
  | none =>
    cases hc : doc.countErr with
    | some e => simp [ho, hc] at h
    | none =>
      cases hl : pdfPagesLoop doc.pages 0 "" with
      | error e => simp [ho, hc, hl] at h
      | ok all_text =>
        simp only [ho, hc, hl] at h
        cases htr : strIsEmpty (rustTrim all_text) with
        | false =>
          have heq : all_text = s := by simpa [htr] using h
          rw [← heq]
          exact htr
        | true =>
          rw [htr] at h
          simp only [Bool.not_true, Bool.false_eq_true, if_false] at h
          cases hav : is_ocr_available env with
          | false => simp [hav] at h
          | true =>
            rw [hav] at h
            simp only [if_true] at h
            exact extract_pdf_with_ocr_nonblank env s h

/-- C9: whenever extraction succeeds for a path classified as Pdf or Image,
the returned string is non-empty after trimming whitespace. -/
theorem pdf_image_success_nonblank (inp : ExtractInput) (s : String)
    (hcls : classify inp.ext = .Pdf ∨ classify inp.ext = .Image)
    (hok : read_file_contents inp = .ok s) :
    strIsEmpty (rustTrim s) = false := by
  unfold read_file_contents at hok
  cases hex : inp.pathExists with
  | false => simp [hex] at hok
  | true =>
    rw [hex] at hok
    rcases hcls with hpdf | himg
    · have h1 := classify_pdf_iff.mp hpdf
      rw [h1] at hok
      simp at hok
      exact extract_pdf_text_nonblank inp.ocr inp.pdf s hok
    · obtain ⟨h1, h2⟩ := classify_image_iff.mp himg
      rw [h1, h2] at hok
      simp at hok
      exact extract_text_from_image_nonblank inp.ocr s hok

/-- C9, witness: a PDF with embedded text "hello" extracts to "hello",
whose trim is non-empty. -/
theorem pdf_image_success_nonblank_witness :
    read_file_contents
          ⟨true, some "pdf", ⟨.other, false, .error ""⟩, ⟨none, none, [.ok "hello"]⟩,
            none, [], none⟩ =
        .ok "hello" ∧
      strIsEmpty (rustTrim "hello") = false :=
  ⟨by decide,
    pdf_image_success_nonblank
      ⟨true, some "pdf", ⟨.other, false, .error ""⟩, ⟨none, none, [.ok "hello"]⟩,
        none, [], none⟩
      "hello" (Or.inl (by decide)) (by decide)⟩

/-- C10: whenever `is_available` is false, `extract_text` fails with an
`ExtractionError` — the helper-missing message on macOS, the no-OCR message
elsewhere — and the result is the same whatever the subprocess outcome
would have been, so no subprocess is consulted. -/
theorem ocr_unavailable_fails_without_subprocess (env : OcrEnv)
    (h : SystemOcrEngine.is_available env = false) :
    ∀ out : Except String ProcessOutput,
      SystemOcrEngine.extract_text ⟨env.targetOs, env.helperFound, out⟩ =
        .error (.ExtractionError
          (if env.targetOs = TargetOs.macos then helperMissingMsg
           else "OCR is only supported on macOS")) := by
  obtain ⟨tos, hfound, hrun⟩ := env
  intro out
  cases tos with
  | macos =>
    simp only [SystemOcrEngine.is_available] at h
    rw [h]
    simp [SystemOcrEngine.extract_text]
  | other =>
    simp [SystemOcrEngine.extract_text]

/-- C10, witness: on macOS with no helper found, a would-be successful
subprocess outcome is ignored and the helper-missing error is returned. -/
theorem ocr_unavailable_fails_without_subprocess_witness :
    SystemOcrEngine.is_available ⟨.macos, false, .error ""⟩ = false ∧
      SystemOcrEngine.extract_text ⟨.macos, false, .ok ⟨true, "hello", ""⟩⟩ =
        .error (.ExtractionError
          (if TargetOs.macos = TargetOs.macos then helperMissingMsg
           else "OCR is only supported on macOS")) :=
  ⟨rfl,
    ocr_unavailable_fails_without_subprocess ⟨.macos, false, .error ""⟩ rfl
      (.ok ⟨true, "hello", ""⟩)⟩

/-- C8, witness: a nonexistent path with a pdf extension. -/
theorem missing_path_fails_first_witness :
    read_file_contents
        ⟨false, some "pdf", ⟨.macos, true, .ok ⟨true, "text", ""⟩⟩,
          ⟨none, none, [.ok "text"]⟩, none, [], some ""⟩ =
      .error .FileNotFound :=
  missing_path_fails_first
    ⟨false, some "pdf", ⟨.macos, true, .ok ⟨true, "text", ""⟩⟩,
      ⟨none, none, [.ok "text"]⟩, none, [], some ""⟩
    rfl

end Catboard
